import Mathlib

/-!
Shallow embedding of `subway_structure.py` (subway validation engine).

Machine model conventions:
* Python dicts with insertion order are association lists `List (String × α)`;
  `dictGet` / `dictInsert` / `dictDel` mirror lookup, in-place update and `del`.
* Python floats are modelled as exact rationals `ℚ` (the comparisons the
  validator makes are on small decimal constants where float and rational
  arithmetic agree).
* Python exceptions (the `raise` in `Route.__init__`, `ZeroDivisionError`,
  `IndexError`) are the `Except.error` branch; the payload carries the message
  and the state (diagnostic lists) already mutated before the raise.
* Python object identity on `Station` / `StopArea` values coincides with
  structural equality here because the extraction phase creates exactly one
  stop-area object per element id.
-/

namespace Subways

/-- OSM relation member: `{'type': …, 'ref': …, 'role': …}`. -/
structure OsmMember where
  type : String
  ref : Int
  role : String
deriving DecidableEq, Repr

/-- Payload of `el['center']`. -/
structure OsmCenter where
  lat : ℚ
  lon : ℚ
deriving DecidableEq, Repr

/-- A raw OSM element (node / way / relation) as consumed by the engine. -/
structure Element where
  type : String
  id : Int
  tags : Option (List (String × String))
  lat : Option ℚ
  lon : Option ℚ
  center : Option OsmCenter
  nodes : Option (List Int)
  members : Option (List OsmMember)
deriving DecidableEq, Repr

/-- Lookup in a tag mapping (`dict.get`). -/
def tagGet (tags : List (String × String)) (k : String) : Option String :=
  (tags.find? (fun p => p.1 == k)).map (fun p => p.2)

/-- Embedding of `el.get('tags', {}).get(k)`. -/
def tagOf (el : Element) (k : String) : Option String :=
  tagGet (el.tags.getD []) k

/-- Embedding of `'k' in el['tags']`. -/
def hasTag (el : Element) (k : String) : Bool :=
  (tagOf el k).isSome

/-- Embedding of `el_id`: first character of the type concatenated with the decimal id. -/
def elId (el : Element) : String :=
  el.type.take 1 ++ toString el.id

/-- The function `el_id` applied to a relation member (`ref` plays the role of `id`). -/
def memberElId (m : OsmMember) : String :=
  m.type.take 1 ++ toString m.ref

/-- Embedding of `el_center`: nodes yield `(lon, lat)`; ways/relations fall back to the
`center` payload, with the `(…, 0.0)`-centred route_master / stop_area_group
special case. -/
def elCenter (el : Element) : Option (ℚ × ℚ) :=
  match el.lat, el.lon with
  | some la, some lo => some (lo, la)
  | _, _ =>
    match el.center with
    | some c =>
      if c.lat = 0 ∧ el.type = "relation" ∧
          (tagOf el "type" = some "route_master" ∨
           tagOf el "public_transport" = some "stop_area_group") then
        none
      else
        some (c.lon, c.lat)
    | none => none

def MODES : List String := ["subway", "light_rail", "monorail"]

def CONSTRUCTION_KEYS : List String :=
  ["construction", "proposed", "construction:railway", "proposed:railway"]

/-- Membership test `x in <set of strings>` where `x` may be `None`. -/
def optMem (x : Option String) (l : List String) : Bool :=
  match x with
  | some s => l.contains s
  | none => false

/-- Python truthiness test `not x` for an optional string
(`None` and `''` are falsy). -/
def optFalsy (x : Option String) : Bool :=
  match x with
  | none => true
  | some s => s == ""

/-- Python `str(x)` for an optional string (`str(None) = "None"`). -/
def fmtOpt (x : Option String) : String :=
  match x with
  | none => "None"
  | some s => s

/-- Ordered dict lookup. -/
def dictGet {α : Type} (d : List (String × α)) (k : String) : Option α :=
  (d.find? (fun p => p.1 == k)).map (fun p => p.2)

/-- Ordered dict assignment: update in place if present, else append. -/
def dictInsert {α : Type} (d : List (String × α)) (k : String) (v : α) :
    List (String × α) :=
  if (d.find? (fun p => p.1 == k)).isSome then
    d.map (fun p => if p.1 == k then (k, v) else p)
  else
    d ++ [(k, v)]

/-- Ordered dict deletion. -/
def dictDel {α : Type} (d : List (String × α)) (k : String) :
    List (String × α) :=
  d.filter (fun p => p.1 != k)

/-- Embedding of `format_elid_list`. -/
def formatElidList (ids : List String) : String :=
  let msg := String.intercalate ", " (ids.take 20)
  if ids.length > 20 then msg ++ ", ..." else msg

/-- digit-string value, for the decimal parser. -/
def digitsVal (cs : List Char) : Nat :=
  cs.foldl (fun a c => a * 10 + (c.toNat - 48)) 0

/-- Python `str.split(sep)` on a character list: every occurrence of the
separator splits, empty parts are kept, and the empty string yields one empty
part. -/
def splitChar (sep : Char) : List Char → List (List Char)
  | [] => [[]]
  | c :: rest =>
    let r := splitChar sep rest
    if c = sep then [] :: r
    else
      match r with
      | h :: t => (c :: h) :: t
      | [] => [[c]]

/-- Python `s.split(sep)`. -/
def pySplit (s : String) (sep : Char) : List String :=
  (splitChar sep s.toList).map (fun cs => String.mk cs)

/-- Model of Python `float()` restricted to plain decimal literals
(optional sign, digits, optional fractional part) — the only shape the city
spreadsheet's bbox column uses. -/
def parseDecimal (s : String) : ℚ :=
  let body : List Char → ℚ := fun cs =>
    match splitChar '.' cs with
    | [i] => (digitsVal i : ℚ)
    | [i, f] => (digitsVal i : ℚ) + (digitsVal f : ℚ) / ((10 : ℚ) ^ f.length)
    | _ => 0
  match s.toList with
  | '-' :: rest => -(body rest)
  | cs => body cs

/-- City.__init__ bbox handling: split column 7 on commas; exactly four parts
yield `[float(bbox[i]) for i in (1, 0, 3, 2)]`, anything else leaves
`bbox = None`. -/
def parseBboxCol (s : String) : Option (ℚ × ℚ × ℚ × ℚ) :=
  match pySplit s ',' with
  | [a, b, c, d] =>
      some (parseDecimal b, parseDecimal a, parseDecimal d, parseDecimal c)
  | _ => none

/-- A `Station` as a route stop references it (only the id is consumed by the
validator). -/
structure StationRec where
  id : String
deriving DecidableEq, Repr

/-- A `StopArea` as the route builder and validator consume it. -/
structure StopAreaS where
  id : String
  name : String
  modes : List String
  station : StationRec
deriving DecidableEq, Repr

/-- A built `Route`. -/
structure RouteS where
  element : Element
  id : String
  ref : Option String
  name : Option String
  colour : Option String
  network : Option String
  mode : String
  stops : List StopAreaS
  rails : List (Int × Int)
deriving DecidableEq, Repr

/-- A `RouteMaster`. -/
structure RouteMasterS where
  routes : List RouteS
  best : Option RouteS
  id : Option String
  has_master : Bool
  ref : Option String
  colour : Option String
  network : Option String
  mode : Option String
  name : Option String
deriving DecidableEq, Repr

/-- The `City` state the claims touch.  The fields mirror `City.__init__`
(expectations, element index, built maps) plus the `found_*` attributes that
`validate` assigns; the station-extraction half of `extract_routes` is out of
scope for the claims, so `stations` is taken as already built. -/
structure CityS where
  num_stations : Int
  num_lines : Int
  num_light_lines : Int
  num_interchanges : Int
  networks : List String
  bbox : Option (ℚ × ℚ × ℚ × ℚ)
  elements : List (String × Element)
  stations : List (String × List StopAreaS)
  routes : List (String × RouteMasterS)
  masters : List (String × Element)
  transfers : List (List StopAreaS)
  station_ids : List String
  errors : List String
  warnings : List String
  found_stations : Nat
  found_lines : Nat
  found_light_lines : Nat
  found_interchanges : Nat
  found_networks : Nat
  unused_entrances : Nat
  entrances_not_in_stop_areas : Nat
deriving DecidableEq, Repr

/-- A city as `City.__init__` leaves it (before any element is added). -/
def emptyCity : CityS :=
  { num_stations := 0, num_lines := 0, num_light_lines := 0,
    num_interchanges := 0, networks := [], bbox := none, elements := [],
    stations := [], routes := [], masters := [], transfers := [],
    station_ids := [], errors := [], warnings := [], found_stations := 0,
    found_lines := 0, found_light_lines := 0, found_interchanges := 0,
    found_networks := 0, unused_entrances := 0,
    entrances_not_in_stop_areas := 0 }

/-- Embedding of `City.log_message`. -/
def logMessage (message : String) (el : Option Element) : String :=
  match el with
  | none => message
  | some el =>
    let tags := el.tags.getD []
    let nm := (tagGet tags "name").getD ((tagGet tags "ref").getD "")
    message ++ s!" ({el.type} {el.id}, \"{nm}\")"

/-- Embedding of `City.error`. -/
def cityError (c : CityS) (message : String) (el : Option Element) : CityS :=
  { c with errors := c.errors ++ [logMessage message el] }

/-- Embedding of `City.warn`. -/
def cityWarn (c : CityS) (message : String) (el : Option Element) : CityS :=
  { c with warnings := c.warnings ++ [logMessage message el] }

/-- Embedding of `City.contains`; `none` is the `TypeError` Python raises when the bbox is
`None` and the element has a center (`self.bbox[0]` on `None`). -/
def contains (c : CityS) (el : Element) : Option Bool :=
  match elCenter el with
  | some lonlat =>
    match c.bbox with
    | some (b0, b1, b2, b3) =>
      some (decide (b0 ≤ lonlat.2 ∧ lonlat.2 ≤ b2 ∧
                    b1 ≤ lonlat.1 ∧ lonlat.1 ≤ b3))
    | none => none
  | none =>
    match el.tags with
    | none => some false
    | some t =>
      some ((tagGet t "route_master").isSome || (tagGet t "public_transport").isSome)

/-- A city built from an expectations row whose bbox column is `s`
(only the bbox handling of `City.__init__` is relevant to the claims). -/
def cityFromBboxRow (s : String) : CityS :=
  { emptyCity with bbox := parseBboxCol s }

/-- Embedding of `Route.is_route`. -/
def isRoute (el : Element) : Bool :=
  if el.type != "relation" || tagOf el "type" != some "route" then false
  else if el.members.isNone then false
  else if !(optMem (tagOf el "route") MODES) then false
  else if CONSTRUCTION_KEYS.any (fun k => hasTag el k) then false
  else if !(hasTag el "ref") && !(hasTag el "name") then false
  else true

/-- Embedding of `Route.get_network`. -/
def getNetwork (relation : Element) : Option String :=
  match tagGet (relation.tags.getD []) "network" with
  | some n => some n
  | none => tagGet (relation.tags.getD []) "operator"

/-- The mutable loop state of the member walk in `Route.__init__`:
the `stops` / `rails` collections, the `enough_stops` flag, and the
diagnostics appended to the city so far (split off so the city itself stays
read-only during the walk). -/
structure BState where
  stops : List StopAreaS
  rails : List (Int × Int)
  enough_stops : Bool
  errs : List String
  warns : List String
deriving DecidableEq, Repr

def bsError (s : BState) (message : String) (el : Option Element) : BState :=
  { s with errs := s.errs ++ [logMessage message el] }

def bsWarn (s : BState) (message : String) (el : Option Element) : BState :=
  { s with warns := s.warns ++ [logMessage message el] }

/-- The inner loop over `CONSTRUCTION_KEYS` in `Route.__init__` (lines
292–295): one error per construction key present on the element. -/
def constructionErrs (tags : List (String × String)) (role : String)
    (el : Element) (s : BState) : BState :=
  CONSTRUCTION_KEYS.foldl (fun s ck =>
    if (tagGet tags ck).isSome then
      bsError s (s!"An under construction {role} in route") (some el)
    else s) s

/-- One iteration of the member loop of `Route.__init__`
(`for m in relation['members']`, lines 253–306).  `Except.error` is the
`raise` for a stop/platform member absent from the element index (and the
`IndexError` Python would raise on an empty list subscript); its payload keeps
the diagnostics recorded before the raise. -/
def stepMember (city : CityS) (relation : Element) (mode : String)
    (is_circle : Bool) (s : BState) (m : OsmMember) :
    Except (String × BState) BState :=
  let k := memberElId m
  match dictGet city.stations k with
  | some st_list =>
    match st_list with
    | [] => Except.error ("IndexError: list index out of range", s)
    | st :: rest =>
      let s := if rest ≠ [] then
          bsError s (s!"Ambigous station {st.name} in route. Please use stop_position or split interchange stations") (some relation)
        else s
      if s.stops = [] ∨ s.stops.getLast? ≠ some st then
        if s.enough_stops then
          if st ∉ s.stops then
            Except.ok (bsError s (s!"Inconsistent platform-stop \"{st.name}\" in route") (some relation))
          else Except.ok s
        else if st ∉ s.stops ∨ is_circle = true then
          let s := { s with stops := s.stops ++ [st] }
          let s := if mode ∉ st.modes then
              let joined := String.intercalate "+" st.modes
              bsWarn s (s!"{joined} station \"{st.name}\" in {mode} route") (some relation)
            else s
          Except.ok s
        else if s.stops.head? = some st ∧ s.enough_stops = false then
          Except.ok { s with enough_stops := true }
        else
          Except.ok (bsError s (s!"Duplicate stop \"{st.name}\" in route - check stop/platform order") (some relation))
      else Except.ok s
  | none =>
    match dictGet city.elements k with
    | none =>
      if m.role = "stop" ∨ m.role = "platform" then
        let s := bsError s (s!"{m.role} {m.type} {m.ref} for route relation is not in the dataset") (some relation)
        Except.error (s!"Stop or platform {m.type} {m.ref} in relation {relation.id} is not in the dataset", s)
      else Except.ok s
    | some el =>
      match el.tags with
      | none => Except.ok (bsError s "Untagged object in a route" (some relation))
      | some tags =>
        let s :=
          if m.role = "stop" ∨ m.role = "platform" then
            -- the `continue` on line 295 only continues the inner loop over
            -- CONSTRUCTION_KEYS, so the walk falls through to the checks below
            let s := constructionErrs tags m.role el s
            if tagGet tags "railway" = some "station" ∨ tagGet tags "railway" = some "halt" then
              bsError s (s!"Missing station={mode} on a {m.role}") (some el)
            else
              bsError s (s!"{m.role} {m.type} {m.ref} is not connected to a station in route") (some relation)
          else s
        if tagGet tags "railway" = some "rail" ∨ tagGet tags "railway" = some "subway" ∨
            tagGet tags "railway" = some "light_rail" ∨ tagGet tags "railway" = some "monorail" then
          match el.nodes with
          | none => Except.ok (bsError s "Cannot find nodes in a railway" (some el))
          | some [] => Except.error ("IndexError: list index out of range", s)
          | some (n :: ns) =>
              Except.ok { s with rails := s.rails ++ [(n, (n :: ns).getLastD n)] }
        else Except.ok s

/-- The whole member walk of `Route.__init__`. -/
def routeWalk (relation : Element) (city : CityS) (mode : String)
    (is_circle : Bool) : Except (String × BState) BState :=
  (relation.members.getD []).foldlM (stepMember city relation mode is_circle)
    { stops := [], rails := [], enough_stops := false, errs := [], warns := [] }

/-- Final state of the member walk, raise or not (the diagnostics recorded
before a raise are part of the Python city state too). -/
def walkOut (relation : Element) (city : CityS) (mode : String)
    (is_circle : Bool) : BState :=
  match routeWalk relation city mode is_circle with
  | Except.ok s => s
  | Except.error e => e.2

/-- Rail-connectivity check at the end of `Route.__init__` (lines 309–314):
the first hole between consecutive rail segments, if any. -/
def findHole : List (Int × Int) → Option Int
  | a :: b :: rest =>
    if b.1 = a.1 ∨ b.1 = a.2 ∨ b.2 = a.1 ∨ b.2 = a.2 then
      findHole (b :: rest)
    else some b.1
  | _ => none

/-- Merge the walk diagnostics into the city (the Python walk appends them to
`city.errors` / `city.warnings` in this order as it goes). -/
def mergeDiags (c : CityS) (s : BState) : CityS :=
  { c with errors := c.errors ++ s.errs, warnings := c.warnings ++ s.warns }

/-- Embedding of `Route.__init__`; `Except.error` carries the raise message and the city
with every diagnostic recorded up to the raise. -/
def routeInit (relation : Element) (city : CityS) :
    Except (String × CityS) (RouteS × CityS) :=
  if isRoute relation = false then
    Except.error ("The relation does not seem a route", city)
  else
    let tags := relation.tags.getD []
    let city := if (tagGet tags "ref").isNone then
        cityWarn city "Missing ref on a route" (some relation)
      else city
    let ref := match tagGet tags "ref" with
      | some r => some r
      | none => tagGet tags "name"
    let name := tagGet tags "name"
    let city := if (tagGet tags "colour").isNone then
        cityWarn city "Missing colour on a route" (some relation)
      else city
    let colour := tagGet tags "colour"
    let network := getNetwork relation
    let mode := (tagGet tags "route").getD ""
    let is_circle : Bool := tagGet tags "circular" == some "yes"
    match routeWalk relation city mode is_circle with
    | Except.error e => Except.error (e.1, mergeDiags city e.2)
    | Except.ok s =>
      let city := mergeDiags city s
      let city := if s.stops = [] then
          cityError city "Route has no stops" (some relation)
        else city
      let city := match findHole s.rails with
        | some n => cityWarn city (s!"Hole in route rails near node {n}") (some relation)
        | none => city
      Except.ok ({ element := relation, id := elId relation, ref := ref,
                   name := name, colour := colour, network := network,
                   mode := mode, stops := s.stops, rails := s.rails }, city)

/-- Embedding of `RouteMaster.__init__`. -/
def rmInit (master : Option Element) : RouteMasterS :=
  match master with
  | some mel =>
    let tags := mel.tags.getD []
    { routes := [], best := none, id := some (elId mel), has_master := true,
      ref := match tagGet tags "ref" with
        | some r => some r
        | none => tagGet tags "name",
      colour := tagGet tags "colour", network := getNetwork mel,
      mode := tagGet tags "route_master", name := tagGet tags "name" }
  | none =>
    { routes := [], best := none, id := none, has_master := false,
      ref := none, colour := none, network := none, mode := none,
      name := none }

/-- Part of `RouteMaster.add`: network resolution (lines 346–350). -/
def rmAddNetwork (m : RouteMasterS) (route : RouteS) (city : CityS) :
    RouteMasterS × CityS :=
  if optFalsy m.network then ({ m with network := route.network }, city)
  else if !(optFalsy route.network) && route.network ≠ m.network then
    (m, cityError city (s!"Route has different network (\"{fmtOpt route.network}\") from master \"{fmtOpt m.network}\"") (some route.element))
  else (m, city)

/-- Part of `RouteMaster.add`: colour resolution (lines 352–356). -/
def rmAddColour (m : RouteMasterS) (route : RouteS) (city : CityS) :
    RouteMasterS × CityS :=
  if optFalsy m.colour then ({ m with colour := route.colour }, city)
  else if !(optFalsy route.colour) && route.colour ≠ m.colour then
    (m, cityWarn city (s!"Route \"{fmtOpt route.colour}\" has different colour from master \"{fmtOpt m.colour}\"") (some route.element))
  else (m, city)

/-- Part of `RouteMaster.add`: ref resolution (lines 358–362). -/
def rmAddRef (m : RouteMasterS) (route : RouteS) (city : CityS) :
    RouteMasterS × CityS :=
  if optFalsy m.ref then ({ m with ref := route.ref }, city)
  else if route.ref ≠ m.ref then
    (m, cityWarn city (s!"Route \"{fmtOpt route.ref}\" has different ref from master \"{fmtOpt m.ref}\"") (some route.element))
  else (m, city)

/-- Part of `RouteMaster.add`: tail after the mode check passed (lines 374–379):
id refresh for ref-keyed masters, append, best refresh. -/
def rmFinishAdd (m : RouteMasterS) (route : RouteS) (city : CityS) :
    RouteMasterS × CityS :=
  let m := if !m.has_master && (optFalsy m.id || route.id < m.id.getD "") then
      { m with id := some route.id }
    else m
  let m := { m with routes := m.routes ++ [route] }
  let m := match m.best with
    | none => { m with best := some route }
    | some b =>
      if route.stops.length > b.stops.length then { m with best := some route }
      else m
  (m, city)

/-- Part of `RouteMaster.add`: attribute resolution before the mode check
(lines 346–365): network, colour, ref and name are resolved against the
incoming route unconditionally. -/
def rmResolve (m : RouteMasterS) (route : RouteS) (city : CityS) :
    RouteMasterS × CityS :=
  let p := rmAddNetwork m route city
  let p := rmAddColour p.1 route p.2
  let p := rmAddRef p.1 route p.2
  ({ p.1 with name := if optFalsy p.1.name then route.name else p.1.name }, p.2)

/-- Embedding of `RouteMaster.add`. -/
def rmAdd (m : RouteMasterS) (route : RouteS) (city : CityS) :
    RouteMasterS × CityS :=
  let p := rmResolve m route city
  if optFalsy p.1.mode then
    rmFinishAdd { p.1 with mode := some route.mode } route p.2
  else if some route.mode ≠ p.1.mode then
    (p.1, cityError p.2 (s!"Incompatible PT mode: master has {fmtOpt p.1.mode} and route has {route.mode}") (some route.element))
  else
    rmFinishAdd p.1 route p.2

/-- Embedding of `City.make_transfer` (the per-city one); Python collects a `set` of the
first stop area under each member id; the set is modelled as a first-insertion
deduplicated list. -/
def makeTransfer (city : CityS) (sag : Element) : CityS :=
  let transfer := (sag.members.getD []).foldl (fun acc m =>
      match dictGet city.stations (memberElId m) with
      | some (st :: _) => if st ∈ acc then acc else acc ++ [st]
      | _ => acc) []
  if transfer.length > 1 then
    { city with transfers := city.transfers ++ [transfer] }
  else city

/-- The master key for a route (lines 538–543): the explicit route_master's
id when one lists the route, else the route's ref. -/
def rmKey (city : CityS) (route : RouteS) : String × Option Element :=
  match dictGet city.masters route.id with
  | some mel => (elId mel, some mel)
  | none => (route.ref.getD "", none)

/-- Line `if k not in self.routes: self.routes[k] = RouteMaster(master)`
(lines 544–545). -/
def ensureMaster (city : CityS) (k : String) (master : Option Element) :
    CityS :=
  if (dictGet city.routes k).isNone then
    { city with routes := dictInsert city.routes k (rmInit master) }
  else city

/-- Call `self.routes[k].add(route, self)` followed by deleting a master left
empty by a rejected add (lines 546–550). -/
def addAndPrune (city : CityS) (k : String) (route : RouteS) : CityS :=
  let rm := (dictGet city.routes k).getD (rmInit none)
  let p := rmAdd rm route city
  let city := { p.2 with routes := dictInsert p.2.routes k p.1 }
  if p.1.routes.length = 0 then
    { city with routes := dictDel city.routes k }
  else city

/-- Keying a built `Route` into its `RouteMaster` (lines 538–550). -/
def addRouteToMasters (city : CityS) (route : RouteS) : CityS :=
  let km := rmKey city route
  addAndPrune (ensureMaster city km.1 km.2) km.1 route

/-- One iteration of the route-extraction loop of `City.extract_routes`
(lines 525–555): build the `Route`, key it into a `RouteMaster`, and run the
stop_area_group interchange check.  A raise inside `Route.__init__` propagates
(nothing in the file catches it). -/
def extractStep (city : CityS) (el : Element) :
    Except (String × CityS) CityS :=
  if isRoute el then
    let route_id := elId el
    let skip :=
      if city.networks ≠ [] then
        let network := getNetwork el
        let master_network := match dictGet city.masters route_id with
          | some mel => getNetwork mel
          | none => none
        !(optMem network city.networks) && !(optMem master_network city.networks)
      else false
    if skip then
      -- the `continue` on line 535 also skips the stop_area_group check below
      Except.ok city
    else
      match routeInit el city with
      | Except.error e => Except.error e
      | Except.ok rc =>
        let city := addRouteToMasters rc.2 rc.1
        if el.type = "relation" ∧ tagOf el "public_transport" = some "stop_area_group" then
          Except.ok (makeTransfer city el)
        else Except.ok city
  else
    if el.type = "relation" ∧ tagOf el "public_transport" = some "stop_area_group" then
      Except.ok (makeTransfer city el)
    else Except.ok city

/-- The route-extraction loop folded over a list of elements. -/
def extractFold (city : CityS) (els : List Element) :
    Except (String × CityS) CityS :=
  els.foldlM extractStep city

/-- The route-extraction half of `City.extract_routes`
(`for el in self.elements.values()`), run on a city whose `stations` map has
already been built by the station-extraction half. -/
def extractLoop (city : CityS) : Except (String × CityS) CityS :=
  extractFold city (city.elements.map (fun p => p.2))

/-- Diagnostic severity: which of the two per-city lists a message joins. -/
inductive Sev
  | warning
  | error
deriving DecidableEq, Repr

/-- The station-count comparison of `City.validate` (lines 623–631).
`Except.error` is the `ZeroDivisionError` Python raises when
`num_stations == 0` and the counts differ (the condition divides by
`num_stations` before anything guards it). -/
def stationsCmp (num_stations : Int) (found_stations : Nat) :
    Except Unit (List (Sev × String)) :=
  if (found_stations : Int) ≠ num_stations then
    if num_stations = 0 then Except.error ()
    else
      let msg := s!"Found {found_stations} stations in routes, expected {num_stations}"
      let ratio : ℚ := ((num_stations : ℚ) - (found_stations : ℚ)) / (num_stations : ℚ)
      if 0 ≤ ratio ∧ ratio ≤ 1/50 then Except.ok [(Sev.warning, msg)]
      else Except.ok [(Sev.error, msg)]
  else Except.ok []

/-- The interchange-count comparison of `City.validate` (lines 633–642);
`num_interchanges == 0` short-circuits the division, so no crash here. -/
def interchangesCmp (num_interchanges : Int) (found_interchanges : Nat) :
    List (Sev × String) :=
  if (found_interchanges : Int) ≠ num_interchanges then
    let msg := s!"Found {found_interchanges} interchanges, expected {num_interchanges}"
    let ratio : ℚ := ((num_interchanges : ℚ) - (found_interchanges : ℚ)) / (num_interchanges : ℚ)
    if num_interchanges = 0 ∨ (0 ≤ ratio ∧ ratio ≤ 7/100) then
      [(Sev.warning, msg)]
    else [(Sev.error, msg)]
  else []

/-- First-occurrence deduplication (insertion order of a `Counter`). -/
def dedupFirst (l : List String) : List String :=
  l.foldl (fun acc s => if s ∈ acc then acc else acc ++ [s]) []

/-- Everything `City.validate` computes and appends, in order, plus the
`found_*` attributes it assigns.  `Except.error` is the station-comparison
`ZeroDivisionError`. -/
structure VOut where
  diags : List (Sev × String)
  found_stations : Nat
  found_lines : Nat
  found_light_lines : Nat
  found_interchanges : Nat
  found_networks : Nat
  unused_entrances : Nat
  entrances_not_in_stop_areas : Nat
deriving DecidableEq, Repr

/-- Embedding of `City.count_unused_entrances` (the per-city entrance audit): the
diagnostics it appends and the two counters it assigns. -/
def countUnusedEntrances (c : CityS) : List (Sev × String) × Nat × Nat :=
  let els := c.elements.map (fun p => p.2)
  let stop_area_members := (els.filter (fun el =>
      el.type = "relation" ∧ el.tags.isSome ∧
      tagOf el "public_transport" = some "stop_area" ∧
      el.members.isSome)).flatMap (fun el => (el.members.getD []).map memberElId)
  let entranceEls := els.filter (fun el =>
      el.type = "node" ∧ el.tags.isSome ∧
      tagOf el "railway" = some "subway_entrance")
  let not_in_sa := (entranceEls.map elId).filter (fun i => i ∉ stop_area_members)
  let unused := (entranceEls.map elId).filter (fun i =>
      i ∉ stop_area_members ∧ (dictGet c.stations i).isNone)
  let d1 := if unused ≠ [] then
      let lst := formatElidList unused
      [(Sev.error, s!"Found {unused.length} entrances not used in routes or stop_areas: {lst}")]
    else []
  let d2 := if not_in_sa ≠ [] then
      [(Sev.warning, s!"{not_in_sa.length} subway entrances are not in stop_area relations")]
    else []
  (d1 ++ d2, unused.length, not_in_sa.length)

/-- Embedding of `City.validate` (lines 600–647) as a pure function of the built state.
It reads only the built maps and the expectation numbers, never the
diagnostic lists or the `found_*` fields. -/
def validateDiags (c : CityS) : Except Unit VOut := do
  let rmasters := c.routes.map (fun p => p.2)
  let used_station_ids := rmasters.flatMap (fun rm =>
      rm.routes.flatMap (fun r => r.stops.map (fun st => st.station.id)))
  let unused_stations := c.station_ids.filter (fun i => i ∉ used_station_ids)
  let d0 := if unused_stations ≠ [] then
      let lst := formatElidList unused_stations
      [(Sev.warning, s!"{unused_stations.length} unused stations: {lst}")]
    else []
  let cue := countUnusedEntrances c
  let found_light_lines := (rmasters.filter (fun rm => rm.mode ≠ some "subway")).length
  let found_lines := c.routes.length - found_light_lines
  let d2 := if (found_lines : Int) ≠ c.num_lines then
      [(Sev.error, s!"Found {found_lines} subway lines, expected {c.num_lines}")]
    else []
  let d3 := if (found_light_lines : Int) ≠ c.num_light_lines then
      [(Sev.error, s!"Found {found_light_lines} light rail lines, expected {c.num_light_lines}")]
    else []
  let found_stations := c.station_ids.length - unused_stations.length
  let d4 ← stationsCmp c.num_stations found_stations
  let found_interchanges := c.transfers.length
  let d5 := interchangesCmp c.num_interchanges found_interchanges
  let networkStrs := rmasters.map (fun rm => fmtOpt rm.network)
  let keys := dedupFirst networkStrs
  let found_networks := keys.length
  let d6 := if found_networks > max 1 c.networks.length then
      let n_str := String.intercalate "; " (keys.map (fun k =>
        let v := networkStrs.count k
        s!"{k} ({v})"))
      [(Sev.warning, s!"More than one network: {n_str}")]
    else []
  Except.ok { diags := d0 ++ cue.1 ++ d2 ++ d3 ++ d4 ++ d5 ++ d6,
              found_stations := found_stations, found_lines := found_lines,
              found_light_lines := found_light_lines,
              found_interchanges := found_interchanges,
              found_networks := found_networks, unused_entrances := cue.2.1,
              entrances_not_in_stop_areas := cue.2.2 }

def errsOf (ds : List (Sev × String)) : List String :=
  (ds.filter (fun d => d.1 = Sev.error)).map (fun d => d.2)

def warnsOf (ds : List (Sev × String)) : List String :=
  (ds.filter (fun d => d.1 = Sev.warning)).map (fun d => d.2)

/-- Embedding of `City.validate`: append the diagnostics to the city's lists and record
the `found_*` attributes. -/
def validate (c : CityS) : Except Unit CityS :=
  match validateDiags c with
  | Except.error e => Except.error e
  | Except.ok vo =>
    Except.ok { c with
                errors := c.errors ++ errsOf vo.diags,
                warnings := c.warnings ++ warnsOf vo.diags,
                found_stations := vo.found_stations,
                found_lines := vo.found_lines,
                found_light_lines := vo.found_light_lines,
                found_interchanges := vo.found_interchanges,
                found_networks := vo.found_networks,
                unused_entrances := vo.unused_entrances,
                entrances_not_in_stop_areas := vo.entrances_not_in_stop_areas }

/-! ### Concrete fixtures -/

/-- A route relation with the given id, tags and members. -/
def mkRouteRel (id : Int) (tags : List (String × String))
    (ms : List OsmMember) : Element :=
  { type := "relation", id := id, tags := some tags, lat := none, lon := none,
    center := none, nodes := none, members := some ms }

/-- A member with role `stop` referencing node `ref`. -/
def stopM (ref : Int) : OsmMember :=
  { type := "node", ref := ref, role := "stop" }

/-- Well-tagged subway route relation tags (ref and colour present, so no
"Missing …" warnings clutter the runs). -/
def relTags (ref : String) : List (String × String) :=
  [("type", "route"), ("route", "subway"), ("ref", ref), ("colour", "red")]

def relTagsCirc (ref : String) : List (String × String) :=
  relTags ref ++ [("circular", "yes")]

def saA : StopAreaS :=
  { id := "n1", name := "A", modes := ["subway"], station := { id := "n1" } }

def saB : StopAreaS :=
  { id := "n2", name := "B", modes := ["subway"], station := { id := "n2" } }

def saC : StopAreaS :=
  { id := "n3", name := "C", modes := ["subway"], station := { id := "n3" } }

/-- A city whose station-extraction phase resolved nodes 1, 2, 3 to the stop
areas A, B, C. -/
def cityABC : CityS :=
  { emptyCity with
    stations := [("n1", [saA]), ("n2", [saB]), ("n3", [saC])] }

/-- Route walking stations A, B, A with no `circular=yes`. -/
def relABA : Element := mkRouteRel 10 (relTags "M1") [stopM 1, stopM 2, stopM 1]

/-- Route walking stations A, B, C, B with no `circular=yes`. -/
def relABCB : Element :=
  mkRouteRel 11 (relTags "M1") [stopM 1, stopM 2, stopM 3, stopM 2]

/-- Route walking stations A, B, A with `circular=yes`. -/
def relABAcirc : Element :=
  mkRouteRel 12 (relTagsCirc "M1") [stopM 1, stopM 2, stopM 1]

/-- Route walking stations A, B, A, C with `circular=yes`. -/
def relABACcirc : Element :=
  mkRouteRel 13 (relTagsCirc "M1") [stopM 1, stopM 2, stopM 1, stopM 3]

/-- Route whose only member is a stop that resolves to no element. -/
def relMissingStop : Element := mkRouteRel 1 (relTags "1") [stopM 99]

/-- A well-formed route over station A. -/
def relGood : Element := mkRouteRel 2 (relTags "2") [stopM 1]

/-- City holding the broken route first and a well-formed route after it. -/
def cityC1 : CityS :=
  { cityABC with
    elements := [("r1", relMissingStop), ("r2", relGood)] }

/-- A node element at the given coordinates. -/
def nodeAt (id : Int) (lat lon : ℚ) : Element :=
  { type := "node", id := id, tags := none, lat := some lat, lon := some lon,
    center := none, nodes := none, members := none }

/-- The built route over station A, as `routeInit relGood cityABC` produces
it. -/
def routeOverA : RouteS :=
  { element := relGood, id := "r2", ref := some "2", name := none,
    colour := some "red", network := none, mode := "subway", stops := [saA],
    rails := [] }

/-- The same route retagged as light rail (for mode-conflict runs). -/
def routeOverALight : RouteS :=
  { element := relGood, id := "r2", ref := some "2", name := none,
    colour := some "red", network := none, mode := "light_rail",
    stops := [saA], rails := [] }

/-- A built city with one accepted subway route over station A but an
expectation row that promises zero stations: `validate` divides by the
expected station count. -/
def cityVal4 : CityS :=
  { emptyCity with
    num_stations := 0, num_lines := 1, station_ids := ["n1"],
    routes := [("2", { rmInit none with
                       routes := [routeOverA], mode := some "subway",
                       best := some routeOverA, ref := some "2",
                       colour := some "red", id := some "r2" })] }

/-- A built city with no routes but an expectation of one subway line:
`validate` emits exactly one diagnostic. -/
def cityVal7 : CityS := { emptyCity with num_lines := 1 }

/-- The check `City.contains` as claim C5 reads it: the bbox column taken as
`minLat,minLon,maxLat,maxLon` in that order with no index rotation, and
containment as `minLat ≤ lat ≤ maxLat ∧ minLon ≤ lon ≤ maxLon`
(spec-side definition, for comparison with `contains`). -/
def specContainsC5 (s : String) (el : Element) : Option Bool :=
  match pySplit s ',' with
  | [a, b, c, d] =>
    match elCenter el with
    | some lonlat =>
      some (decide (parseDecimal a ≤ lonlat.2 ∧ lonlat.2 ≤ parseDecimal c ∧
                    parseDecimal b ≤ lonlat.1 ∧ lonlat.1 ≤ parseDecimal d))
    | none =>
      match el.tags with
      | none => some false
      | some t =>
        some ((tagGet t "route_master").isSome || (tagGet t "public_transport").isSome)
  | _ => none

/-- An element whose center lies inside claim C5's reading of the bbox
`"10,20,30,40"` (lat 15 ∈ [10,30], lon 25 ∈ [20,40]). -/
def elC5 : Element := nodeAt 5 15 25

/-- The stop-sequence invariant exactly as claim C2 states it: no duplicate
stop, except that a circular route may close the loop with a final stop equal
to the first (spec-side predicate, for comparison with the built stops). -/
def specStopsOkC2 (is_circle : Bool) (l : List StopAreaS) : Bool :=
  decide l.Nodup ||
    (is_circle && decide (l.getLast? = l.head?) && decide l.dropLast.Nodup)

/-! ### Result accessors (observations on `Except` outcomes) -/

/-- Did the extraction loop abort with an exception? -/
def loopAborted (r : Except (String × CityS) CityS) : Bool :=
  match r with
  | Except.error _ => true
  | Except.ok _ => false

/-- The city state an extraction outcome leaves behind (on an abort, the
state at the moment of the raise). -/
def loopCity (r : Except (String × CityS) CityS) : CityS :=
  match r with
  | Except.error e => e.2
  | Except.ok c => c

/-- The exception message of an aborted extraction. -/
def loopMsg (r : Except (String × CityS) CityS) : Option String :=
  match r with
  | Except.error e => some e.1
  | Except.ok _ => none

/-- Stops of a successfully built route (empty on a raise). -/
def initStops (rel : Element) (city : CityS) : List StopAreaS :=
  match routeInit rel city with
  | Except.ok rc => rc.1.stops
  | Except.error _ => []

/-- City error list after `Route.__init__` (also on a raise, where the list
already holds the recorded error). -/
def initErrors (rel : Element) (city : CityS) : List String :=
  match routeInit rel city with
  | Except.ok rc => rc.2.errors
  | Except.error e => e.2.errors

/-- The successful build of `relABA` over `cityABC`. -/
def routeABA : RouteS × CityS :=
  match routeInit relABA cityABC with
  | Except.ok rc => rc
  | Except.error _ => (routeOverA, cityABC)

/-- City after the first `validate` call on `cityVal7`. -/
def cityVal7a : CityS :=
  match validate cityVal7 with
  | Except.ok c => c
  | Except.error _ => cityVal7

/-- City after the second `validate` call. -/
def cityVal7b : CityS :=
  match validate cityVal7a with
  | Except.ok c => c
  | Except.error _ => cityVal7a

/-- City whose element index holds one well-formed subway route. -/
def cityC6 : CityS := { cityABC with elements := [("r2", relGood)] }

/-- Its route extraction result. -/
def cityC6e : CityS :=
  match extractLoop cityC6 with
  | Except.ok c => c
  | Except.error e => e.2

/-- Decidable form of the RouteMaster mode invariant. -/
def rmModeOk (rm : RouteMasterS) : Bool :=
  rm.routes.all (fun r => rm.mode == some r.mode)

/-- The initial loop state of the member walk. -/
def bs0 : BState :=
  { stops := [], rails := [], enough_stops := false, errs := [], warns := [] }

/-! ### Claim C1 -/

/-- C1, counterexample: a route whose `stop` member is absent from the element
index does not leave the pipeline running — `extract_routes` aborts with the
uncaught raise from `Route.__init__` (the error is recorded first), and the
city's remaining route (`relGood`, second in the index) is never built. -/
theorem C1_missing_stop_aborts_pipeline :
    loopAborted (extractLoop cityC1) = true ∧
    loopMsg (extractLoop cityC1) =
      some "Stop or platform node 99 in relation 1 is not in the dataset" ∧
    (loopCity (extractLoop cityC1)).errors =
      ["stop node 99 for route relation is not in the dataset (relation 1, \"1\")"] ∧
    (loopCity (extractLoop cityC1)).routes = [] :=
  ⟨rfl, rfl, rfl, rfl⟩

/-! ### Claim C2 -/

/-- C2, counterexample: with `circular=yes` the route builder appends every
non-consecutive repeat, so walking A, B, A, C yields `stops = [A, B, A, C]` —
station A occurs twice and the last stop is C ≠ A, violating the claimed
"no duplicate except possibly last = first" invariant. -/
theorem C2_circular_route_duplicates_stops :
    (walkOut relABACcirc cityABC "subway" true).stops = [saA, saB, saA, saC] ∧
    specStopsOkC2 true (walkOut relABACcirc cityABC "subway" true).stops = false :=
  ⟨rfl, rfl⟩

/-! ### Claim C3 -/

/-- C3, counterexample: for members resolving to A, B, A with no
`circular=yes`, the builder emits no error at all (in particular no
"Duplicate stop") — the repeat of the first stop is taken as loop closure —
though the stop sequence is indeed `[A, B]`. -/
theorem C3_first_stop_repeat_emits_no_error :
    initErrors relABA cityABC = [] ∧
    initStops relABA cityABC = [saA, saB] :=
  ⟨rfl, rfl⟩

/-- C3, amended: a repeat of the *first* stop sets `enough_stops` (loop
closure) and emits nothing; "Duplicate stop" is emitted only when the
repeated stop differs from the first, e.g. members A, B, C, B produce that
error at the second B and `stops = [A, B, C]`. -/
theorem C3_duplicate_stop_only_for_nonfirst_repeat :
    (walkOut relABA cityABC "subway" false).enough_stops = true ∧
    initErrors relABCB cityABC =
      ["Duplicate stop \"B\" in route - check stop/platform order (relation 11, \"M1\")"] ∧
    initStops relABCB cityABC = [saA, saB, saC] :=
  ⟨rfl, rfl, rfl⟩

/-! ### Claim C4 -/

/-- C4, counterexample: a built city with one found station but an expected
station count of zero makes `validate` raise `ZeroDivisionError` inside the
station comparison instead of yielding a diagnostic — `validate` is not total
over built city state. -/
theorem C4_validate_crashes_on_zero_expected :
    validate cityVal4 = Except.error () :=
  rfl

/-! ### Claim C5 -/

/-- C5, counterexample: reading the bbox column `"10,20,30,40"` as
`minLat,minLon,maxLat,maxLon` (the claim's order), the node at lat 15, lon 25
lies inside that box, yet `City.contains` answers `false`: the loader permutes
the column as `(1,0,3,2)`, i.e. the column is actually consumed as
`minLon,minLat,maxLon,maxLat`. -/
theorem C5_claimed_bbox_order_disagrees :
    specContainsC5 "10,20,30,40" elC5 = some true ∧
    contains (cityFromBboxRow "10,20,30,40") elC5 = some false :=
  ⟨by decide, by decide⟩

/-! ### Claim C7 -/

/-- C7, counterexample: `validate` appends its diagnostics to the city lists
on every call, so a second call on `cityVal7a` (a city with one mismatch
diagnostic) duplicates the error message and the lists are not identical. -/
theorem C7_second_validate_changes_errors :
    validate cityVal7 = Except.ok cityVal7a ∧
    validate cityVal7a = Except.ok cityVal7b ∧
    cityVal7a.errors = ["Found 0 subway lines, expected 1"] ∧
    cityVal7b.errors =
      ["Found 0 subway lines, expected 1", "Found 0 subway lines, expected 1"] ∧
    cityVal7b.errors ≠ cityVal7a.errors :=
  ⟨rfl, rfl, rfl, rfl, by decide⟩

/-- C4, amended: the station comparison never aborts and obeys the claimed
warn/error bands as long as the expected count is non-zero (equal counts
produce no diagnostic; otherwise a warning iff `0 ≤ (e−f)/e ≤ 0.02`, an error
otherwise); with an expected count of zero and a differing found count it
raises `ZeroDivisionError` instead of producing a diagnostic. -/
theorem C4_stations_cmp_behaviour (e : Int) (f : Nat) :
    ((f : Int) = e → stationsCmp e f = Except.ok []) ∧
    ((f : Int) ≠ e → e ≠ 0 →
      0 ≤ ((e : ℚ) - (f : ℚ)) / (e : ℚ) →
      ((e : ℚ) - (f : ℚ)) / (e : ℚ) ≤ 1/50 →
      stationsCmp e f =
        Except.ok [(Sev.warning, s!"Found {f} stations in routes, expected {e}")]) ∧
    ((f : Int) ≠ e → e ≠ 0 →
      ¬(0 ≤ ((e : ℚ) - (f : ℚ)) / (e : ℚ) ∧ ((e : ℚ) - (f : ℚ)) / (e : ℚ) ≤ 1/50) →
      stationsCmp e f =
        Except.ok [(Sev.error, s!"Found {f} stations in routes, expected {e}")]) ∧
    ((f : Int) ≠ e → e = 0 → stationsCmp e f = Except.error ()) := by
  refine ⟨?_, ?_, ?_, ?_⟩
  · intro h; simp [stationsCmp, h]
  · intro h1 h2 h3 h4
    simp only [stationsCmp, if_pos h1, if_neg h2]
    rw [if_pos ⟨h3, h4⟩]
  · intro h1 h2 h3
    simp only [stationsCmp, if_pos h1, if_neg h2]
    rw [if_neg h3]
  · intro h1 h2
    simp only [stationsCmp, if_pos h1, if_pos h2]

/-- C4, amended, witness: expected 100 and found 98 stations is inside the
2 % band, so the comparison yields exactly the warning. -/
theorem C4_stations_cmp_behaviour_witness :
    stationsCmp 100 98 =
      Except.ok [(Sev.warning, "Found 98 stations in routes, expected 100")] :=
  (C4_stations_cmp_behaviour 100 98).2.1 (by decide) (by decide)
    (by norm_num) (by norm_num)

/-! ### Claim C8 -/

/-- C8: the interchange comparison appends nothing when the counts agree;
otherwise it appends a warning when the expected count is zero or the
relative shortfall `(e−f)/e` lies in `[0, 0.07]`, and an error otherwise. -/
theorem C8_interchanges_cmp_behaviour (e : Int) (f : Nat) :
    ((f : Int) = e → interchangesCmp e f = []) ∧
    ((f : Int) ≠ e →
      (e = 0 ∨ (0 ≤ ((e : ℚ) - (f : ℚ)) / (e : ℚ) ∧
                ((e : ℚ) - (f : ℚ)) / (e : ℚ) ≤ 7/100)) →
      interchangesCmp e f =
        [(Sev.warning, s!"Found {f} interchanges, expected {e}")]) ∧
    ((f : Int) ≠ e →
      ¬(e = 0 ∨ (0 ≤ ((e : ℚ) - (f : ℚ)) / (e : ℚ) ∧
                 ((e : ℚ) - (f : ℚ)) / (e : ℚ) ≤ 7/100)) →
      interchangesCmp e f =
        [(Sev.error, s!"Found {f} interchanges, expected {e}")]) := by
  refine ⟨?_, ?_, ?_⟩
  · intro h; simp [interchangesCmp, h]
  · intro h1 h2
    simp only [interchangesCmp, if_pos h1]
    rw [if_pos h2]
  · intro h1 h2
    simp only [interchangesCmp, if_pos h1]
    rw [if_neg h2]

/-- C8, witness: zero expected interchanges and five found yields the
warning. -/
theorem C8_interchanges_cmp_behaviour_witness :
    interchangesCmp 0 5 = [(Sev.warning, "Found 5 interchanges, expected 0")] :=
  (C8_interchanges_cmp_behaviour 0 5).2.1 (by decide) (Or.inl rfl)

/-! ### Claim C10 -/

/-- C10: when the (non-empty) bbox column does not split into exactly four
comma-separated parts, `City.__init__` leaves `bbox = None`, and
`City.contains` on any element that has a center subscripts `None`
(a `TypeError`) instead of returning a boolean. -/
theorem C10_bad_bbox_contains_fails (s : String) (el : Element)
    (_hne : s ≠ "") (hlen : (pySplit s ',').length ≠ 4) :
    parseBboxCol s = none ∧
    ((elCenter el).isSome = true → contains (cityFromBboxRow s) el = none) := by
  have hb : parseBboxCol s = none := by
    unfold parseBboxCol
    rcases h : pySplit s ',' with _ | ⟨a, _ | ⟨b, _ | ⟨c, _ | ⟨d, _ | ⟨e, t⟩⟩⟩⟩⟩ <;>
      simp_all
  refine ⟨hb, fun hc => ?_⟩
  obtain ⟨p, hp⟩ := Option.isSome_iff_exists.mp hc
  simp [contains, cityFromBboxRow, hp, hb]

/-- C10, witness: the three-part column `"1,2,3"` leaves the bbox unset and
`contains` fails on a node with coordinates. -/
theorem C10_bad_bbox_contains_fails_witness :
    parseBboxCol "1,2,3" = none ∧
    contains (cityFromBboxRow "1,2,3") elC5 = none :=
  ⟨(C10_bad_bbox_contains_fails "1,2,3" elC5 (by decide) (by decide)).1,
   (C10_bad_bbox_contains_fails "1,2,3" elC5 (by decide) (by decide)).2 (by decide)⟩

/-- C5, amended: the bbox column is consumed in `minLon,minLat,maxLon,maxLat`
order — the loader permutes indices `(1,0,3,2)`, so `"10,20,30,40"` is loaded
as `(20,10,40,30)` — and thereafter containment for an element with a center
holds exactly when `bbox[0] ≤ lat ≤ bbox[2] ∧ bbox[1] ≤ lon ≤ bbox[3]`; an
element with no center belongs to the city exactly when its tag map carries a
`route_master` or `public_transport` key (and never when it has no tags). -/
theorem C5_contains_characterisation :
    parseBboxCol "10,20,30,40" = some (20, 10, 40, 30) ∧
    (∀ (c : CityS) (el : Element) (b0 b1 b2 b3 lon lat : ℚ),
      c.bbox = some (b0, b1, b2, b3) → elCenter el = some (lon, lat) →
      (contains c el = some true ↔
        (b0 ≤ lat ∧ lat ≤ b2 ∧ b1 ≤ lon ∧ lon ≤ b3))) ∧
    (∀ (c : CityS) (el : Element) (t : List (String × String)),
      elCenter el = none → el.tags = some t →
      (contains c el = some true ↔
        ((tagGet t "route_master").isSome ∨ (tagGet t "public_transport").isSome))) ∧
    (∀ (c : CityS) (el : Element),
      elCenter el = none → el.tags = none → contains c el = some false) := by
  refine ⟨by decide, ?_, ?_, ?_⟩
  · intro c el b0 b1 b2 b3 lon lat hb hc
    simp [contains, hb, hc]
  · intro c el t hc ht
    simp [contains, hc, ht]
  · intro c el hc ht
    simp [contains, hc, ht]

/-- C5, amended, witness: with the loaded bbox `(20,10,40,30)`, a node at
lat 25, lon 15 is contained. -/
theorem C5_contains_characterisation_witness :
    contains (cityFromBboxRow "10,20,30,40") (nodeAt 6 25 15) = some true :=
  (C5_contains_characterisation.2.1 (cityFromBboxRow "10,20,30,40")
      (nodeAt 6 25 15) 20 10 40 30 15 25 (by decide) rfl).mpr (by norm_num)

/-! ### Structural lemmas about `RouteMaster.add` -/

theorem rmAddNetwork_fst (m : RouteMasterS) (r : RouteS) (c : CityS) :
    (rmAddNetwork m r c).1 =
      { m with network := if optFalsy m.network then r.network else m.network } := by
  unfold rmAddNetwork
  split_ifs <;> rfl

theorem rmAddColour_fst (m : RouteMasterS) (r : RouteS) (c : CityS) :
    (rmAddColour m r c).1 =
      { m with colour := if optFalsy m.colour then r.colour else m.colour } := by
  unfold rmAddColour
  split_ifs <;> rfl

theorem rmAddRef_fst (m : RouteMasterS) (r : RouteS) (c : CityS) :
    (rmAddRef m r c).1 =
      { m with ref := if optFalsy m.ref then r.ref else m.ref } := by
  unfold rmAddRef
  split_ifs <;> rfl

theorem rmResolve_fst (m : RouteMasterS) (r : RouteS) (c : CityS) :
    (rmResolve m r c).1 =
      { m with
        network := if optFalsy m.network then r.network else m.network,
        colour := if optFalsy m.colour then r.colour else m.colour,
        ref := if optFalsy m.ref then r.ref else m.ref,
        name := if optFalsy m.name then r.name else m.name } := by
  unfold rmResolve
  simp only [rmAddNetwork_fst, rmAddColour_fst, rmAddRef_fst]

theorem rmAddNetwork_snd_routes (m : RouteMasterS) (r : RouteS) (c : CityS) :
    (rmAddNetwork m r c).2.routes = c.routes := by
  unfold rmAddNetwork
  split_ifs <;> rfl

theorem rmAddColour_snd_routes (m : RouteMasterS) (r : RouteS) (c : CityS) :
    (rmAddColour m r c).2.routes = c.routes := by
  unfold rmAddColour
  split_ifs <;> rfl

theorem rmAddRef_snd_routes (m : RouteMasterS) (r : RouteS) (c : CityS) :
    (rmAddRef m r c).2.routes = c.routes := by
  unfold rmAddRef
  split_ifs <;> rfl

theorem rmResolve_snd_routes (m : RouteMasterS) (r : RouteS) (c : CityS) :
    (rmResolve m r c).2.routes = c.routes := by
  unfold rmResolve
  simp only [rmAddRef_snd_routes, rmAddColour_snd_routes, rmAddNetwork_snd_routes]

theorem rmFinishAdd_fst_routes (m : RouteMasterS) (r : RouteS) (c : CityS) :
    (rmFinishAdd m r c).1.routes = m.routes ++ [r] := by
  unfold rmFinishAdd
  split_ifs <;> rcases hb : m.best with _ | b <;> simp [hb] <;> split_ifs <;> rfl

theorem rmFinishAdd_fst_mode (m : RouteMasterS) (r : RouteS) (c : CityS) :
    (rmFinishAdd m r c).1.mode = m.mode := by
  unfold rmFinishAdd
  split_ifs <;> rcases hb : m.best with _ | b <;> simp [hb] <;> split_ifs <;> rfl

theorem rmFinishAdd_snd (m : RouteMasterS) (r : RouteS) (c : CityS) :
    (rmFinishAdd m r c).2 = c := by
  unfold rmFinishAdd
  split_ifs <;> rcases hb : m.best with _ | b <;> simp [hb]

theorem rmAdd_snd_routes (m : RouteMasterS) (r : RouteS) (c : CityS) :
    (rmAdd m r c).2.routes = c.routes := by
  simp only [rmAdd]
  split_ifs <;>
    simp [rmFinishAdd_snd, rmResolve_snd_routes, cityError]

/-- In the mode-conflict case `rmAdd` stops after attribute resolution and
appends the error. -/
theorem rmAdd_reject (m : RouteMasterS) (r : RouteS) (c : CityS)
    (hfalsy : optFalsy m.mode = false) (hne : some r.mode ≠ m.mode) :
    rmAdd m r c =
      ((rmResolve m r c).1,
        cityError (rmResolve m r c).2
          (s!"Incompatible PT mode: master has {fmtOpt m.mode} and route has {r.mode}")
          (some r.element)) := by
  have h1 : (rmResolve m r c).1.mode = m.mode := by rw [rmResolve_fst]
  simp only [rmAdd]
  rw [h1, if_neg (by simp [hfalsy]), if_pos (h1 ▸ hne)]

/-! ### Claim C9 -/

/-- C9: when `RouteMaster.add` rejects a route over a mode conflict, the
member list and `best` are untouched (as are mode, id and the flag), but the
network/colour/ref/name have already been resolved against the rejected
route — a first non-null attribute of the rejected route becomes the
master's — and the mode error is the last message appended. -/
theorem C9_mode_reject_frame (m : RouteMasterS) (r : RouteS) (city : CityS)
    (x : String) (hm : m.mode = some x) (hx : x ≠ "") (hr : r.mode ≠ x) :
    (rmAdd m r city).1.routes = m.routes ∧
    (rmAdd m r city).1.best = m.best ∧
    (rmAdd m r city).1.mode = m.mode ∧
    (rmAdd m r city).1.id = m.id ∧
    (rmAdd m r city).1.has_master = m.has_master ∧
    (rmAdd m r city).1.network =
      (if optFalsy m.network then r.network else m.network) ∧
    (rmAdd m r city).1.colour =
      (if optFalsy m.colour then r.colour else m.colour) ∧
    (rmAdd m r city).1.ref = (if optFalsy m.ref then r.ref else m.ref) ∧
    (rmAdd m r city).1.name = (if optFalsy m.name then r.name else m.name) ∧
    (rmAdd m r city).2.errors.getLast? =
      some (logMessage
        (s!"Incompatible PT mode: master has {x} and route has {r.mode}")
        (some r.element)) := by
  have hfalsy : optFalsy m.mode = false := by
    rw [hm]; simpa [optFalsy] using hx
  have hne : some r.mode ≠ m.mode := by
    rw [hm]; exact fun h => hr (Option.some_inj.mp h)
  rw [rmAdd_reject m r city hfalsy hne, rmResolve_fst, hm]
  refine ⟨rfl, rfl, rfl, rfl, rfl, rfl, rfl, rfl, rfl, ?_⟩
  simp [cityError, fmtOpt, List.getLast?_concat]

/-- C9, witness: a master with mode `subway`, a light-rail route with every
attribute non-null: the route is dropped but its colour is adopted. -/
theorem C9_mode_reject_frame_witness :
    (rmAdd { rmInit none with mode := some "subway" } routeOverALight emptyCity).1.routes = [] ∧
    (rmAdd { rmInit none with mode := some "subway" } routeOverALight emptyCity).1.colour = some "red" ∧
    (rmAdd { rmInit none with mode := some "subway" } routeOverALight emptyCity).2.errors.getLast? =
      some (logMessage
        "Incompatible PT mode: master has subway and route has light_rail"
        (some routeOverALight.element)) := by
  have h := C9_mode_reject_frame { rmInit none with mode := some "subway" }
    routeOverALight emptyCity "subway" rfl (by decide) (by decide)
  exact ⟨h.1, h.2.2.2.2.2.2.1, h.2.2.2.2.2.2.2.2.2⟩

/-- C1, amended: a `stop`/`platform` member that resolves to no known stop
area and no indexed element makes the member walk record the error and then
raise, and a raise inside `extract_routes`'s loop aborts the whole loop — the
remaining elements (hence the city's remaining routes) are never processed. -/
theorem C1_missing_stop_recorded_then_raises :
    (∀ (city : CityS) (rel : Element) (mode : String) (circ : Bool)
       (s : BState) (m : OsmMember),
      (m.role = "stop" ∨ m.role = "platform") →
      dictGet city.stations (memberElId m) = none →
      dictGet city.elements (memberElId m) = none →
      stepMember city rel mode circ s m =
        Except.error
          (s!"Stop or platform {m.type} {m.ref} in relation {rel.id} is not in the dataset",
           bsError s (s!"{m.role} {m.type} {m.ref} for route relation is not in the dataset")
             (some rel))) ∧
    (∀ (c : CityS) (el : Element) (rest : List Element) (e : String × CityS),
      extractStep c el = Except.error e →
      extractFold c (el :: rest) = Except.error e) := by
  constructor
  · intro city rel mode circ s m hrole hst hel
    simp only [stepMember, hst, hel]
    rw [if_pos hrole]
  · intro c el rest e h
    unfold extractFold
    rw [List.foldlM_cons, h]
    rfl

/-- C1, amended, witness: the concrete missing-stop member raises with the
error recorded, starting from the initial walk state. -/
theorem C1_missing_stop_recorded_then_raises_witness :
    stepMember cityABC relMissingStop "subway" false bs0 (stopM 99) =
      Except.error
        ("Stop or platform node 99 in relation 1 is not in the dataset",
         bsError bs0 "stop node 99 for route relation is not in the dataset"
           (some relMissingStop)) :=
  C1_missing_stop_recorded_then_raises.1 cityABC relMissingStop "subway" false
    bs0 (stopM 99) (Or.inl rfl) rfl rfl

theorem constructionErrs_stops (tags : List (String × String)) (role : String)
    (el : Element) (s : BState) :
    (constructionErrs tags role el s).stops = s.stops := by
  simp only [constructionErrs, CONSTRUCTION_KEYS, List.foldl_cons, List.foldl_nil]
  split_ifs <;> rfl

/-- One non-circular walk step keeps the stop list duplicate-free: the only
branch that appends guards on `st ∉ stops` once `is_circle` is false. -/
theorem stepMember_nodup (city : CityS) (rel : Element) (mode : String)
    (s : BState) (m : OsmMember) :
    (∀ s', stepMember city rel mode false s m = Except.ok s' →
      s.stops.Nodup → s'.stops.Nodup) ∧
    (∀ e, stepMember city rel mode false s m = Except.error e →
      e.2.stops = s.stops) := by
  constructor
  · intro s' h hnd
    simp only [stepMember] at h
    repeat' split at h
    all_goals try exact Except.noConfusion h
    all_goals injection h with h
    all_goals subst h
    all_goals simp_all [bsError, bsWarn, constructionErrs_stops,
      List.nodup_append]
  · intro e h
    simp only [stepMember] at h
    repeat' split at h
    all_goals try exact Except.noConfusion h
    all_goals injection h with h
    all_goals subst h
    all_goals simp_all [bsError, bsWarn, constructionErrs_stops]

/-- Folding a non-circular walk over any member list keeps the stop list
duplicate-free, whether the walk finishes or raises. -/
theorem walkFold_nodup (city : CityS) (rel : Element) (mode : String) :
    ∀ (ms : List OsmMember) (s : BState), s.stops.Nodup →
      (match ms.foldlM (stepMember city rel mode false) s with
       | Except.ok s' => s'.stops.Nodup
       | Except.error e => e.2.stops.Nodup) := by
  intro ms
  induction ms with
  | nil => intro s h; simpa using h
  | cons m tl ih =>
    intro s h
    rw [List.foldlM_cons]
    cases hstep : stepMember city rel mode false s m with
    | ok s1 =>
      have h1 := (stepMember_nodup city rel mode s m).1 s1 hstep h
      exact ih s1 h1
    | error e =>
      have h1 := (stepMember_nodup city rel mode s m).2 e hstep
      show e.2.stops.Nodup
      rw [h1]; exact h

theorem walkOut_nodup (rel : Element) (city : CityS) (mode : String) :
    (walkOut rel city mode false).stops.Nodup := by
  have h2 := walkFold_nodup city rel mode (rel.members.getD [])
    { stops := [], rails := [], enough_stops := false, errs := [], warns := [] }
    (by simp)
  unfold walkOut routeWalk
  split <;> rename_i heq <;> rw [heq] at h2 <;> simpa using h2

theorem routeWalk_ok_nodup (rel : Element) (city : CityS) (mode : String)
    (s : BState) (h : routeWalk rel city mode false = Except.ok s) :
    s.stops.Nodup := by
  have h2 := walkFold_nodup city rel mode (rel.members.getD [])
    { stops := [], rails := [], enough_stops := false, errs := [], warns := [] }
    (by simp)
  unfold routeWalk at h
  rw [h] at h2
  simpa using h2

/-- C2, amended: a Route built from a relation without `circular=yes` has a
duplicate-free stop sequence (likewise the walk state at any abort); with
`circular=yes` every non-consecutive repeat is appended, so walking
A (stop), B (stop), A (stop) yields `stops = [A, B, A]` with no
duplicate-stop error, and `enough_stops` stays false (loop closure is never
marked on a circular route). -/
theorem C2_stops_nodup_unless_circular :
    (∀ (rel : Element) (city : CityS) (mode : String),
      (walkOut rel city mode false).stops.Nodup) ∧
    (∀ (rel : Element) (city : CityS) (r : RouteS) (c' : CityS),
      routeInit rel city = Except.ok (r, c') →
      tagGet (rel.tags.getD []) "circular" ≠ some "yes" →
      r.stops.Nodup) ∧
    (walkOut relABAcirc cityABC "subway" true).stops = [saA, saB, saA] ∧
    (walkOut relABAcirc cityABC "subway" true).enough_stops = false ∧
    (walkOut relABAcirc cityABC "subway" true).errs = [] := by
  refine ⟨walkOut_nodup, ?_, rfl, rfl, rfl⟩
  intro rel city r c' h hcirc
  have hbeq : (tagGet (rel.tags.getD []) "circular" == some "yes") = false := by
    simpa using hcirc
  simp only [routeInit] at h
  rw [hbeq] at h
  split at h
  · exact Except.noConfusion h
  · split at h
    · exact Except.noConfusion h
    · rename_i s heq
      injection h with h
      have hs : r.stops = s.stops := by
        have := congrArg Prod.fst h
        simp at this
        rw [← this]
      rw [hs]
      exact routeWalk_ok_nodup rel _ _ s heq

/-- C2, amended, witness: the stop sequence of the concrete non-circular
build of `relABA` is duplicate-free. -/
theorem C2_stops_nodup_unless_circular_witness :
    routeABA.1.stops.Nodup :=
  C2_stops_nodup_unless_circular.2.1 relABA cityABC routeABA.1 routeABA.2
    (by rfl) (by decide)

/-! ### RouteMaster mode invariant -/

/-- The mode invariant a master maintains: every member route agrees with the
master's mode (and, as routes are only ever produced by `Route.__init__`,
carries a non-empty mode string). -/
def RMInv (rm : RouteMasterS) : Prop :=
  ∀ r ∈ rm.routes, rm.mode = some r.mode ∧ r.mode ≠ ""

/-- The city-wide version over the routes dict. -/
def CityRMInv (c : CityS) : Prop := ∀ p ∈ c.routes, RMInv p.2

theorem rmInit_inv (master : Option Element) : RMInv (rmInit master) := by
  intro r hr
  cases master <;> simp [rmInit] at hr

theorem rmAdd_first (m : RouteMasterS) (r : RouteS) (c : CityS)
    (hf : optFalsy m.mode = true) :
    rmAdd m r c =
      rmFinishAdd { (rmResolve m r c).1 with mode := some r.mode } r
        (rmResolve m r c).2 := by
  have hm : (rmResolve m r c).1.mode = m.mode := by rw [rmResolve_fst]
  simp only [rmAdd]
  rw [hm, if_pos hf]

theorem rmAdd_pass (m : RouteMasterS) (r : RouteS) (c : CityS)
    (hf : optFalsy m.mode = false) (heq : some r.mode = m.mode) :
    rmAdd m r c = rmFinishAdd (rmResolve m r c).1 r (rmResolve m r c).2 := by
  have hm : (rmResolve m r c).1.mode = m.mode := by rw [rmResolve_fst]
  simp only [rmAdd]
  rw [hm, if_neg (by simp [hf]), if_neg (by simp [heq])]

theorem rmAdd_inv (m : RouteMasterS) (r : RouteS) (c : CityS)
    (hrm : r.mode ≠ "") (hinv : RMInv m) : RMInv (rmAdd m r c).1 := by
  have hres1 : (rmResolve m r c).1.mode = m.mode := by rw [rmResolve_fst]
  have hres2 : (rmResolve m r c).1.routes = m.routes := by rw [rmResolve_fst]
  by_cases hf : optFalsy m.mode = true
  · rw [rmAdd_first m r c hf]
    intro r' hr'
    rw [rmFinishAdd_fst_routes] at hr'
    have hr'' : r' ∈ m.routes ++ [r] := by
      simpa [hres2] using hr'
    rw [rmFinishAdd_fst_mode]
    rcases List.mem_append.mp hr'' with hmem | hmem
    · exfalso
      obtain ⟨h1, h2⟩ := hinv r' hmem
      rw [h1] at hf
      simp [optFalsy] at hf
      exact h2 hf
    · simp only [List.mem_singleton] at hmem
      subst hmem
      exact ⟨rfl, hrm⟩
  · have hf' : optFalsy m.mode = false := by simpa using hf
    by_cases hne : some r.mode = m.mode
    · rw [rmAdd_pass m r c hf' hne]
      intro r' hr'
      rw [rmFinishAdd_fst_routes, hres2] at hr'
      rw [rmFinishAdd_fst_mode, hres1]
      rcases List.mem_append.mp hr' with hmem | hmem
      · exact hinv r' hmem
      · simp only [List.mem_singleton] at hmem
        subst hmem
        exact ⟨hne.symm, hrm⟩
    · rw [rmAdd_reject m r c hf' hne]
      intro r' hr'
      simp only [hres2] at hr'
      rw [hres1]
      exact hinv r' hr'

theorem dictGet_pred {α : Type} (d : List (String × α)) (k : String) (v : α)
    (P : α → Prop) (hall : ∀ p ∈ d, P p.2) (h : dictGet d k = some v) :
    P v := by
  unfold dictGet at h
  cases hf : d.find? (fun p => p.1 == k) with
  | none => rw [hf] at h; exact Option.noConfusion h
  | some q =>
    rw [hf] at h
    injection h with h
    subst h
    exact hall q (List.mem_of_find?_eq_some hf)

theorem dictInsert_pred {α : Type} (d : List (String × α)) (k : String)
    (v : α) (P : α → Prop) (hall : ∀ p ∈ d, P p.2) (hv : P v) :
    ∀ p ∈ dictInsert d k v, P p.2 := by
  intro p hp
  unfold dictInsert at hp
  split at hp
  · obtain ⟨q, hq, hpq⟩ := List.mem_map.mp hp
    split at hpq
    · rw [← hpq]; exact hv
    · rw [← hpq]; exact hall q hq
  · rcases List.mem_append.mp hp with h | h
    · exact hall p h
    · simp only [List.mem_singleton] at h
      subst h
      exact hv

theorem dictDel_pred {α : Type} (d : List (String × α)) (k : String)
    (P : α → Prop) (hall : ∀ p ∈ d, P p.2) :
    ∀ p ∈ dictDel d k, P p.2 := by
  intro p hp
  exact hall p (List.mem_of_mem_filter hp)

/-- The predicate `CityRMInv` only looks at the routes dict. -/
theorem CityRMInv_of_routes_eq (c c' : CityS) (h : c'.routes = c.routes)
    (hinv : CityRMInv c) : CityRMInv c' := by
  intro p hp
  exact hinv p (h ▸ hp)

theorem ensureMaster_inv (city : CityS) (k : String)
    (master : Option Element) (hinv : CityRMInv city) :
    CityRMInv (ensureMaster city k master) := by
  unfold ensureMaster
  split
  · intro p hp
    exact dictInsert_pred _ _ _ RMInv hinv (rmInit_inv _) p hp
  · exact hinv

theorem addAndPrune_inv (city : CityS) (k : String) (route : RouteS)
    (hmode : route.mode ≠ "") (hinv : CityRMInv city) :
    CityRMInv (addAndPrune city k route) := by
  have hrm : RMInv ((dictGet city.routes k).getD (rmInit none)) := by
    cases hget : dictGet city.routes k with
    | none => simpa using rmInit_inv none
    | some rm =>
      rw [Option.getD_some]
      exact dictGet_pred city.routes k rm RMInv hinv hget
  have hadd := rmAdd_inv ((dictGet city.routes k).getD (rmInit none)) route
    city hmode hrm
  have hc2 : CityRMInv
      { (rmAdd ((dictGet city.routes k).getD (rmInit none)) route city).2 with
        routes := dictInsert
          (rmAdd ((dictGet city.routes k).getD (rmInit none)) route city).2.routes
          k (rmAdd ((dictGet city.routes k).getD (rmInit none)) route city).1 } := by
    intro p hp
    refine dictInsert_pred _ _ _ RMInv ?_ hadd p hp
    intro q hq
    rw [rmAdd_snd_routes] at hq
    exact hinv q hq
  simp only [addAndPrune]
  split
  · intro p hp
    exact dictDel_pred _ _ RMInv hc2 p hp
  · exact hc2

theorem addRouteToMasters_inv (city : CityS) (route : RouteS)
    (hmode : route.mode ≠ "") (hinv : CityRMInv city) :
    CityRMInv (addRouteToMasters city route) := by
  simp only [addRouteToMasters]
  exact addAndPrune_inv _ _ _ hmode (ensureMaster_inv _ _ _ hinv)

theorem makeTransfer_routes (c : CityS) (el : Element) :
    (makeTransfer c el).routes = c.routes := by
  simp only [makeTransfer]
  split <;> rfl

theorem mem_MODES_ne (x : String) (h : x ∈ MODES) : x ≠ "" := by
  simp only [ MODES, List.mem_cons, List.not_mem_nil, or_false] at h
  rcases h with rfl | rfl | rfl <;> decide

/-- A relation accepted by `Route.is_route` carries `route ∈ MODES`. -/
theorem isRoute_route_tag (el : Element) (h : isRoute el = true) :
    ∃ x ∈ MODES, tagGet (el.tags.getD []) "route" = some x := by
  unfold isRoute at h
  split_ifs at h with h1 h2 h3 h4 h5
  have hx : optMem (tagOf el "route") MODES = true := by
    rcases Bool.eq_false_or_eq_true (optMem (tagOf el "route") MODES) with hh | hh
    · exact hh
    · exact absurd (by simp [hh]) h3
  cases ht : tagOf el "route" with
  | none => rw [ht] at hx; simp [optMem] at hx
  | some s =>
    rw [ht] at hx
    refine ⟨s, ?_, ht⟩
    simpa [optMem] using hx

/-- A successful `Route.__init__` leaves the routes dict alone and yields a
mode drawn from `MODES` (hence non-empty). -/
theorem routeInit_ok_frame (rel : Element) (city : CityS)
    (rc : RouteS × CityS) (h : routeInit rel city = Except.ok rc) :
    rc.1.mode ≠ "" ∧ rc.2.routes = city.routes := by
  simp only [routeInit] at h
  split at h
  · exact Except.noConfusion h
  · rename_i hIR
    split at h
    · exact Except.noConfusion h
    · rename_i s heq
      injection h with h
      subst h
      constructor
      · obtain ⟨x, hx, hxt⟩ := isRoute_route_tag rel
          (by simpa using eq_true_of_ne_false (by simpa using hIR))
        simp only [hxt, Option.getD_some]
        exact mem_MODES_ne x hx
      · simp only [mergeDiags, cityError, cityWarn]
        repeat' split
        all_goals rfl

/-- One extraction step preserves the city-wide mode invariant. -/
theorem extractStep_inv (c : CityS) (el : Element) (c' : CityS)
    (hinv : CityRMInv c) (h : extractStep c el = Except.ok c') :
    CityRMInv c' := by
  simp only [extractStep] at h
  repeat' split at h
  all_goals try exact Except.noConfusion h
  all_goals injection h with h
  all_goals subst h
  all_goals
    first
      | exact hinv
      | exact CityRMInv_of_routes_eq _ _ (makeTransfer_routes _ _) hinv
      | (rename_i rc heq hcond
         obtain ⟨hm, hr⟩ := routeInit_ok_frame el c rc heq
         exact addRouteToMasters_inv rc.2 rc.1 hm
           (CityRMInv_of_routes_eq c rc.2 hr hinv))
      | (rename_i rc heq hcond
         obtain ⟨hm, hr⟩ := routeInit_ok_frame el c rc heq
         exact CityRMInv_of_routes_eq _ _ (makeTransfer_routes _ _)
           (addRouteToMasters_inv rc.2 rc.1 hm
             (CityRMInv_of_routes_eq c rc.2 hr hinv)))

/-- The invariant survives the whole extraction fold. -/
theorem extractFold_inv (els : List Element) :
    ∀ (c c' : CityS), CityRMInv c → extractFold c els = Except.ok c' →
      CityRMInv c' := by
  induction els with
  | nil =>
    intro c c' hinv h
    unfold extractFold at h
    rw [List.foldlM_nil] at h
    injection h with h
    subst h
    exact hinv
  | cons e tl ih =>
    intro c c' hinv h
    unfold extractFold at h
    rw [List.foldlM_cons] at h
    cases hstep : extractStep c e with
    | error err =>
      rw [hstep] at h
      exact Except.noConfusion h
    | ok c1 =>
      rw [hstep] at h
      exact ih c1 c' (extractStep_inv c e c1 hinv hstep) h

/-! ### Claim C6 -/

/-- C6: after route extraction every RouteMaster's `mode` agrees with the
mode of each of its member routes; within `RouteMaster.add`, the first
non-null mode wins (the route is appended and stamps the master), and a route
whose mode conflicts with the already-set master mode leaves the member list
unchanged (it is rejected, not appended). -/
theorem C6_master_mode_invariant :
    (∀ (c c' : CityS), c.routes = [] → extractLoop c = Except.ok c' →
      (c'.routes.all (fun p => rmModeOk p.2)) = true) ∧
    (∀ (m : RouteMasterS) (r : RouteS) (city : CityS),
      optFalsy m.mode = true →
      (rmAdd m r city).1.mode = some r.mode ∧
      (rmAdd m r city).1.routes = m.routes ++ [r]) ∧
    (∀ (m : RouteMasterS) (r : RouteS) (city : CityS),
      optFalsy m.mode = false → some r.mode ≠ m.mode →
      (rmAdd m r city).1.routes = m.routes) := by
  refine ⟨?_, ?_, ?_⟩
  · intro c c' hempty h
    have hinv : CityRMInv c := by
      intro p hp
      rw [hempty] at hp
      exact absurd hp (List.not_mem_nil p)
    unfold extractLoop at h
    have hinv' := extractFold_inv (c.elements.map (fun p => p.2)) c c' hinv h
    rw [List.all_eq_true]
    intro p hp
    rw [rmModeOk, List.all_eq_true]
    intro r hr
    rw [beq_iff_eq]
    exact ((hinv' p hp) r hr).1
  · intro m r city hf
    rw [rmAdd_first m r city hf]
    refine ⟨by rw [rmFinishAdd_fst_mode], ?_⟩
    rw [rmFinishAdd_fst_routes]
    simp [rmResolve_fst]
  · intro m r city hf hne
    rw [rmAdd_reject m r city hf hne]
    simp [rmResolve_fst]

/-- C6, witness: extracting the one-route city `cityC6` yields masters all of
whose member routes agree with the master's mode. -/
theorem C6_master_mode_invariant_witness :
    (cityC6e.routes.all (fun p => rmModeOk p.2)) = true :=
  C6_master_mode_invariant.1 cityC6 cityC6e rfl rfl

/-! ### Claim C7 -/

/-- The function `validate` reads none of the fields it writes: updating the diagnostic
lists and the `found_*` attributes does not change what the next call
computes. -/
theorem validateDiags_frame (c : CityS) (e w : List String)
    (f1 f2 f3 f4 f5 f6 f7 : Nat) :
    validateDiags
      { c with
        errors := e, warnings := w, found_stations := f1,
        found_lines := f2, found_light_lines := f3, found_interchanges := f4,
        found_networks := f5, unused_entrances := f6,
        entrances_not_in_stop_areas := f7 } = validateDiags c := rfl

/-- Shape of a successful `validate` call. -/
theorem validate_ok_elim (c c' : CityS) (h : validate c = Except.ok c') :
    ∃ vo, validateDiags c = Except.ok vo ∧
      c' = { c with
             errors := c.errors ++ errsOf vo.diags,
             warnings := c.warnings ++ warnsOf vo.diags,
             found_stations := vo.found_stations,
             found_lines := vo.found_lines,
             found_light_lines := vo.found_light_lines,
             found_interchanges := vo.found_interchanges,
             found_networks := vo.found_networks,
             unused_entrances := vo.unused_entrances,
             entrances_not_in_stop_areas := vo.entrances_not_in_stop_areas } := by
  unfold validate at h
  split at h
  · exact Except.noConfusion h
  · rename_i vo heq
    injection h with h
    exact ⟨vo, heq, h.symm⟩

theorem list_append_eq_self {α : Type} (l x : List α) : l ++ x = l ↔ x = [] :=
  List.append_right_eq_self

/-- C7, amended: `validate` is deterministic and reads only built state, but
it is not idempotent on the diagnostic lists — each call appends the same
batch again.  After a second call the error and warning lists are the
first-call lists with the batch appended once more, so they are identical to
the first-call lists exactly when the batch was empty. -/
theorem C7_validate_rerun (c c₁ c₂ : CityS)
    (h1 : validate c = Except.ok c₁) (h2 : validate c₁ = Except.ok c₂) :
    c₂.errors = c₁.errors ++ c₁.errors.drop c.errors.length ∧
    c₂.warnings = c₁.warnings ++ c₁.warnings.drop c.warnings.length ∧
    ((c₂.errors = c₁.errors ∧ c₂.warnings = c₁.warnings) ↔
      (c₁.errors = c.errors ∧ c₁.warnings = c.warnings)) := by
  obtain ⟨vo, hv, hc1⟩ := validate_ok_elim c c₁ h1
  obtain ⟨vo2, hv2, hc2⟩ := validate_ok_elim c₁ c₂ h2
  subst hc1
  rw [validateDiags_frame, hv] at hv2
  injection hv2 with hv2
  subst hv2
  subst hc2
  refine ⟨?_, ?_, ?_⟩
  · simp [List.drop_left]
  · simp [List.drop_left]
  · constructor
    · rintro ⟨ha, hb⟩
      have hE : errsOf vo.diags = [] := (list_append_eq_self _ _).mp ha
      have hW : warnsOf vo.diags = [] := (list_append_eq_self _ _).mp hb
      exact ⟨by simp [hE], by simp [hW]⟩
    · rintro ⟨ha, hb⟩
      have hE : errsOf vo.diags = [] := (list_append_eq_self _ _).mp ha
      have hW : warnsOf vo.diags = [] := (list_append_eq_self _ _).mp hb
      exact ⟨by simp [hE], by simp [hW]⟩

/-- C7, amended, witness: the second `validate` call on the one-diagnostic
city appends the same batch again. -/
theorem C7_validate_rerun_witness :
    cityVal7b.errors =
      cityVal7a.errors ++ cityVal7a.errors.drop cityVal7.errors.length :=
  (C7_validate_rerun cityVal7 cityVal7a cityVal7b rfl rfl).1

end Subways
